import Mathlib

/-
Shallow embedding of the MDB protocol engine (src/MDB/Mdb.c, src/MDB/MDB.h).

Bytes are modelled as natural numbers reduced modulo 256 wherever the C code
stores them in a uint8_t slot; 32-bit tick arithmetic is modelled by `wsub`,
the wrap-around subtraction modulo 2^32 that the C expression
`currentTime - lastTime` performs on uint32_t values.

Transport I/O (HAL_UART_Transmit / HAL_UART_Receive) is an external
collaborator; each embedded operation takes the relevant outcomes of those
calls as explicit inputs (a Bool for a transmit, an optional first byte plus a
list of interbyte receive outcomes for a receive window) and records its
externally visible behaviour in a list of `Event`s.

Functions that are declared in the repository but whose bodies are absent from
src (CalculateChecksum, ParseConfiguration, MDB_EnableReader,
MDB_DisableReader, MDB_SessionComplete, MDB_VendFailure, the HandleXxx message
handlers, MDB_ProcessMessageQueue, and the received-command byte constants)
are modelled from the specification; each such definition carries a doc
comment starting with "Modelled from the spec:".
-/

set_option linter.unusedVariables false
set_option maxRecDepth 8000

namespace MDB

/-- Error kinds, from MDB.h (`MDB_Error_t`). -/
inductive MDB_Error where
  | none
  | nak
  | timeout
  | checksum
  | state
  | parameter
  | communication
  | sequence
  | funds
  | hardware
deriving DecidableEq

/-- Session states, from MDB.h (`MDB_State_t`). -/
inductive MDB_State where
  | inactive
  | disabled
  | enabled
  | sessionIdle
  | vend
  | revalue
  | negativeVend
deriving DecidableEq

/-- Numeric value of a state, as the C enum orders them (MDB.h lines 13-21);
the C code compares states with `>` through these values. -/
def MDB_State.toNat : MDB_State → Nat
  | .inactive => 0
  | .disabled => 1
  | .enabled => 2
  | .sessionIdle => 3
  | .vend => 4
  | .revalue => 5
  | .negativeVend => 6

/-- Externally visible effects of the engine: UART transmit attempts (with the
outcome the transport reported), MDB_LogError calls, frames fed from the queue
to MDB_ProcessMessage, calls into the reader/session collaborators, HAL_Delay
pauses and MDB_DumpLogs. -/
inductive Event where
  | tx (frame : List Nat) (ok : Bool)
  | logErr (e : MDB_Error)
  | dispatched (m : List Nat)
  | disableReader
  | enableReader
  | sessionComplete
  | vendFailure
  | delay (ms : Nat)
  | dumpLogs
deriving DecidableEq

/-- Outcome of one HAL_UART_Receive call during the interbyte phase:
either a byte arrived within the timeout or the receive failed. -/
inductive RxEvent where
  | byte (b : Nat)
  | fail
deriving DecidableEq

/-- Receive-side behaviour of the environment for one WaitForResponse window:
`first` is the byte (if any) that arrives within the response-timeout window,
`rest` the sequence of interbyte receive outcomes offered afterwards; an
exhausted list behaves like a failed receive (nothing more arrives). -/
structure RxEnv where
  first : Option Nat
  rest : List RxEvent
deriving DecidableEq

/-- One entry of the circular error log, from MDB.h (`MDB_ErrorLog_t`). -/
structure ErrEntry where
  timestamp : Nat
  error : MDB_Error
  state : MDB_State
  lastCommand : Nat
  lastResponse : Nat
deriving DecidableEq

/-- The process-wide mutable state of Mdb.c that the verified claims touch:
the session state machine fields, the poll clock, the message queue, the
retry state (lastCommand buffer + length + retryCount), the static counters
of MDB_HandleError and the circular error log. -/
structure Engine where
  state : MDB_State
  availableFunds : Nat
  sessionTimeout : Nat
  lastPollTime : Nat
  queue : List (List Nat)
  lastCommandBuf : List Nat
  lastCommandLength : Nat
  retryCount : Nat
  lastErrorTime : Nat
  rapidErrorCount : Nat
  seriousErrorCount : Nat
  errorLogIndex : Nat
  errorLog : Nat → ErrEntry
  lastResponse : Nat
  configData : List Nat

/-- The all-zero boot state of the module's statics. -/
def initialEngine : Engine where
  state := .inactive
  availableFunds := 0
  sessionTimeout := 0
  lastPollTime := 0
  queue := []
  lastCommandBuf := List.replicate 36 0
  lastCommandLength := 0
  retryCount := 0
  lastErrorTime := 0
  rapidErrorCount := 0
  seriousErrorCount := 0
  errorLogIndex := 0
  errorLog := fun _ => ⟨0, .none, .inactive, 0, 0⟩
  lastResponse := 0
  configData := []

/-- Wrap-around subtraction of uint32_t ticks: the value of the C expression
`a - b` on 32-bit unsigned operands. -/
def wsub (a b : Nat) : Nat :=
  (a % 4294967296 + (4294967296 - b % 4294967296)) % 4294967296

/-- Modelled from the spec: CalculateChecksum is declared in Mdb.c but its
body is absent from src; section 4.1 defines it as the sum of all bytes
modulo 256. -/
def CalculateChecksum (data : List Nat) : Nat :=
  data.sum % 256

/-- The effect of `memcpy(dst, src, n)` on a buffer viewed as a list: the
first `n` cells are replaced by `src`'s first `n` cells, the tail is kept. -/
def memcpyList (dst src : List Nat) (n : Nat) : List Nat :=
  src.take n ++ dst.drop n

/-- Result of WaitForResponse: the returned flag, the prefix of rxBuffer that
was written during the window, and the MDB_LogError calls it made. -/
structure WaitResult where
  success : Bool
  frame : List Nat
  events : List Event
deriving DecidableEq

/-- The interbyte loop of WaitForResponse (Mdb.c lines 232-243) together with
the checksum validation after it (lines 246-252): while the last stored byte
does not have the 0x100 mode bit set, receive one more byte within the
interbyte timeout (a failed receive logs Communication and returns false);
after storing a byte, a length of 36 or more logs Parameter and returns
false.  On loop exit a frame longer than one byte has its last byte checked
against the checksum of the preceding bytes.  Stored bytes are uint8_t, so
they are reduced mod 256. -/
def interByteLoop (rxs : List RxEvent) (frame : List Nat) : WaitResult :=
    if (frame.getLastD 0) &&& 256 ≠ 0 then
      if frame.length > 1 then
        if CalculateChecksum frame.dropLast ≠ frame.getLastD 0 then
          ⟨false, frame, [Event.logErr .checksum]⟩
        else ⟨true, frame, []⟩
      else ⟨true, frame, []⟩
    else
      match rxs with
      | [] => ⟨false, frame, [Event.logErr .communication]⟩
      | RxEvent.fail :: _ => ⟨false, frame, [Event.logErr .communication]⟩
      | RxEvent.byte b :: rest =>
        let frame2 := frame ++ [b % 256]
        if frame2.length ≥ 36 then ⟨false, frame2, [Event.logErr .parameter]⟩
        else interByteLoop rest frame2

/-- WaitForResponse (Mdb.c lines 224-260): if no byte arrives within the
response-timeout window, log Timeout and fail; otherwise store the first byte
(uint8_t) and run the interbyte loop. -/
def waitForResponse (rx : RxEnv) : WaitResult :=
  match rx.first with
  | Option.none => ⟨false, [], [Event.logErr .timeout]⟩
  | Option.some b => interByteLoop rx.rest [b % 256]

/-- SendCommand (Mdb.c lines 199-222): reject a payload longer than 35 bytes
with a Parameter error; otherwise record the payload into the lastCommand
buffer (memcpy of `length` bytes) and its length, append the checksum, and
transmit `length + 1` bytes, logging Communication if the transport write
fails.  `txOk` is the outcome HAL_UART_Transmit reports. -/
def SendCommand (payload : List Nat) (txOk : Bool) (s : Engine) :
    Engine × Bool × List Event :=
  if payload.length > 35 then
    (s, false, [Event.logErr .parameter])
  else
    let s1 := { s with
      lastCommandBuf := memcpyList s.lastCommandBuf payload payload.length,
      lastCommandLength := payload.length }
    let frame := payload ++ [CalculateChecksum payload]
    (s1, txOk, Event.tx frame txOk ::
      (if txOk then [] else [Event.logErr .communication]))

/-- MDB_Reset (Mdb.c lines 85-110): send the one-byte RESET command (0x10),
wait for the JUST RESET response, check its first byte is 0x00, and only then
set the state to Inactive and report success.  Each failing exit logs the
error the C code logs (Communication, Timeout, Sequence). -/
def MDB_Reset (txOk : Bool) (rx : RxEnv) (s : Engine) :
    Engine × Bool × List Event :=
  let r1 := SendCommand [16] txOk s
  if ¬r1.2.1 then
    (r1.1, false, r1.2.2 ++ [Event.logErr .communication])
  else
    let wr := waitForResponse rx
    let s2 := { r1.1 with lastResponse := wr.frame.headD r1.1.lastResponse }
    if ¬wr.success then
      (s2, false, r1.2.2 ++ wr.events ++ [Event.logErr .timeout])
    else if wr.frame.headD 0 ≠ 0 then
      (s2, false, r1.2.2 ++ wr.events ++ [Event.logErr .sequence])
    else
      ({ s2 with state := .inactive }, true, r1.2.2 ++ wr.events)

/-- Modelled from the spec: MDB_DisableReader is declared in MDB.h but its
body is absent from src; section 4.2 has it send READER DISABLE and, from
Enabled or deeper, move the state to Disabled.  The transport exchange is
abstracted into the emitted event, which marks the call itself. -/
def MDB_DisableReader (s : Engine) : Engine × Bool × List Event :=
  if 2 ≤ s.state.toNat then
    ({ s with state := .disabled }, true, [Event.disableReader])
  else (s, false, [Event.disableReader])

/-- Modelled from the spec: MDB_EnableReader is declared in MDB.h but its
body is absent from src; section 4.2 has it send READER ENABLE while
Disabled, moving the state to Enabled, and makes it illegal from any other
state. -/
def MDB_EnableReader (s : Engine) : Engine × Bool × List Event :=
  if s.state = .disabled then
    ({ s with state := .enabled }, true, [Event.enableReader])
  else (s, false, [Event.enableReader])

/-- Modelled from the spec: MDB_SessionComplete is declared in MDB.h but its
body is absent from src; section 4.2 has it send END SESSION, move the state
to Enabled and clear the session fields. -/
def MDB_SessionComplete (s : Engine) : Engine × Bool × List Event :=
  ({ s with state := .enabled, availableFunds := 0, sessionTimeout := 0 },
    true, [Event.sessionComplete])

/-- Modelled from the spec: MDB_VendFailure is declared in MDB.h but its body
is absent from src; per section 4.2 a vend failure while in Vend records the
failed transaction and returns the session to SessionIdle. -/
def MDB_VendFailure (s : Engine) : Engine × Bool × List Event :=
  if s.state = .vend then
    ({ s with state := .sessionIdle }, true, [Event.vendFailure])
  else (s, false, [Event.vendFailure])

/-- Transmit outcomes the environment supplies to one MDB_HandleError call:
the outcome for a NAK-retry resend, for the RET transmit of the Checksum
branch, and for the RESET transmit plus receive window of a nested
MDB_Reset. -/
structure HErrEnv where
  resendTxOk : Bool
  retTxOk : Bool
  resetTxOk : Bool
  resetRx : RxEnv
deriving DecidableEq

/-- The switch statement of MDB_HandleError (Mdb.c lines 265-344): the
per-kind recovery action.  Nak retries the last command while retryCount < 3
and otherwise clears the counter and forces MDB_Reset; Timeout forces
MDB_Reset unless the state is already Inactive; Checksum sends RET (0xAA);
State forces MDB_SessionComplete from session-level states (> Enabled);
Sequence does the same but forces MDB_Reset otherwise; Funds forces
MDB_VendFailure while in Vend; Hardware disables the reader, pauses and
resets; Communication disables, pauses, resets, pauses and re-enables; every
other kind (None, Parameter) falls to the default full reset. -/
def handleBranch (err : MDB_Error) (env : HErrEnv) (s : Engine) :
    Engine × List Event :=
  match err with
  | .nak =>
    if s.retryCount < 3 then
      let s1 := { s with retryCount := s.retryCount + 1 }
      if 0 < s1.lastCommandLength then
        let r := SendCommand (s1.lastCommandBuf.take s1.lastCommandLength)
          env.resendTxOk s1
        (r.1, r.2.2)
      else (s1, [])
    else
      let s1 := { s with retryCount := 0 }
      let r := MDB_Reset env.resetTxOk env.resetRx s1
      (r.1, r.2.2)
  | .timeout =>
    if s.state ≠ .inactive then
      let r := MDB_Reset env.resetTxOk env.resetRx s
      (r.1, r.2.2)
    else (s, [])
  | .checksum =>
    let r := SendCommand [170] env.retTxOk s
    (r.1, r.2.2)
  | .state =>
    if 2 < s.state.toNat then
      let r := MDB_SessionComplete s
      (r.1, r.2.2)
    else (s, [])
  | .sequence =>
    if 2 < s.state.toNat then
      let r := MDB_SessionComplete s
      (r.1, r.2.2)
    else
      let r := MDB_Reset env.resetTxOk env.resetRx s
      (r.1, r.2.2)
  | .funds =>
    if s.state = .vend then
      let r := MDB_VendFailure s
      (r.1, r.2.2)
    else (s, [])
  | .hardware =>
    let d := MDB_DisableReader s
    let r := MDB_Reset env.resetTxOk env.resetRx d.1
    (r.1, d.2.2 ++ [Event.delay 100] ++ r.2.2)
  | .communication =>
    let d := MDB_DisableReader s
    let r := MDB_Reset env.resetTxOk env.resetRx d.1
    let e := MDB_EnableReader r.1
    (e.1, d.2.2 ++ [Event.delay 100] ++ r.2.2 ++ [Event.delay 100] ++ e.2.2)
  | _ =>
    let r := MDB_Reset env.resetTxOk env.resetRx s
    (r.1, r.2.2)

/-- The burst detector of MDB_HandleError (Mdb.c lines 347-364): if the gap
since the previous error (uint32 subtraction) is below 5000 ms the rolling
counter increments (uint8_t) and, past 5, the reader is disabled and the
counter cleared; a gap of 5000 ms or more clears the counter; the error time
is then recorded. -/
def burstUpdate (now : Nat) (s : Engine) : Engine × List Event :=
  if wsub now s.lastErrorTime < 5000 then
    let c := (s.rapidErrorCount + 1) % 256
    if 5 < c then
      let d := MDB_DisableReader { s with rapidErrorCount := 0 }
      ({ d.1 with lastErrorTime := now }, d.2.2)
    else ({ s with rapidErrorCount := c, lastErrorTime := now }, [])
  else ({ s with rapidErrorCount := 0, lastErrorTime := now }, [])

/-- The error-log append of MDB_HandleError (Mdb.c lines 366-377): one entry
capturing the tick, the error kind, the session state, lastCommand[0] and
rxBuffer[0] as they stand at this point, written at errorLogIndex, which then
advances modulo 50. -/
def appendErrorLog (err : MDB_Error) (now : Nat) (s : Engine) : Engine :=
  let entry : ErrEntry :=
    ⟨now, err, s.state, s.lastCommandBuf.getD 0 0, s.lastResponse⟩
  { s with
    errorLog := fun j => if j = s.errorLogIndex then entry else s.errorLog j,
    errorLogIndex := (s.errorLogIndex + 1) % 50 }

/-- The serious-error counter of MDB_HandleError (Mdb.c lines 380-387): a
Hardware or Communication error increments it (uint8_t) and at 3 the logs are
dumped and the counter cleared. -/
def seriousUpdate (err : MDB_Error) (s : Engine) : Engine × List Event :=
  if err = .hardware ∨ err = .communication then
    let c := (s.seriousErrorCount + 1) % 256
    if 3 ≤ c then ({ s with seriousErrorCount := 0 }, [Event.dumpLogs])
    else ({ s with seriousErrorCount := c }, [])
  else (s, [])

/-- MDB_HandleError (Mdb.c lines 262-388): log the error, run the per-kind
recovery branch, update the burst detector, append the error-log entry and
update the serious-error counter, in that order. -/
def MDB_HandleError (err : MDB_Error) (now : Nat) (env : HErrEnv)
    (s : Engine) : Engine × List Event :=
  let b := handleBranch err env s
  let u := burstUpdate now b.1
  let s3 := appendErrorLog err now u.1
  let d := seriousUpdate err s3
  (d.1, Event.logErr err :: (b.2 ++ u.2 ++ d.2))

/-- Modelled from the spec: the received-command byte constants
(MDBRxCashlessJustReset and friends, Mdb.c lines 124-140) are declared in a
header absent from src and their values are not given by the spec, so the
embedding is parameterized by them. -/
structure CmdCodes where
  justReset : Nat
  beginSession : Nat
  vendApproved : Nat
  vendDenied : Nat
  endSession : Nat
deriving DecidableEq

/-- Modelled from the spec: HandleJustReset is declared in Mdb.c but its body
is absent from src; per section 4.2 a device "just reset" frame resets
Config/Session and moves the state to Inactive (the subsequent setup
handshake is transport-driven and outside this handler model). -/
def HandleJustReset (s : Engine) : Engine × Bool :=
  ({ s with
     state := .inactive, availableFunds := 0, sessionTimeout := 0,
     configData := [] }, true)

/-- Modelled from the spec: HandleBeginSession is declared in Mdb.c but its
body is absent from src; per section 4.2 a "begin session" frame while
Enabled populates the available funds (carried in the message) and moves to
SessionIdle, and is a sequence error outside Enabled. -/
def HandleBeginSession (m : List Nat) (len : Nat) (s : Engine) :
    Engine × Bool :=
  if s.state = .enabled then
    ({ s with
       state := .sessionIdle,
       availableFunds := m.getD 1 0 * 256 + m.getD 2 0 }, true)
  else (s, false)

/-- Modelled from the spec: HandleVendApproved is declared in Mdb.c but its
body is absent from src; per section 4.2 "vend approved" while Vend records
success and returns to SessionIdle, failing otherwise. -/
def HandleVendApproved (m : List Nat) (len : Nat) (s : Engine) :
    Engine × Bool :=
  if s.state = .vend then ({ s with state := .sessionIdle }, true)
  else (s, false)

/-- Modelled from the spec: HandleVendDenied is declared in Mdb.c but its
body is absent from src; per section 4.2 "vend denied" while Vend records
failure and returns to SessionIdle, failing otherwise. -/
def HandleVendDenied (s : Engine) : Engine × Bool :=
  if s.state = .vend then ({ s with state := .sessionIdle }, true)
  else (s, false)

/-- Modelled from the spec: HandleEndSession is declared in Mdb.c but its
body is absent from src; per section 4.2 ending a session from a
session-level state clears the session and returns to Enabled. -/
def HandleEndSession (s : Engine) : Engine × Bool :=
  if 2 < s.state.toNat then
    ({ s with state := .enabled, availableFunds := 0 }, true)
  else (s, false)

/-- MDB_ProcessMessage (Mdb.c lines 112-157): a zero length or null pointer
logs Parameter and returns false; otherwise the first byte is dispatched over
the five handled device commands, anything else falls to the default branch
with success = false; any failure then logs Sequence.  The null pointer is
modelled by `Option.none`, and the length is passed separately from the byte
list exactly as the C call passes `len` next to `msg`. -/
def MDB_ProcessMessage (codes : CmdCodes) (msg : Option (List Nat))
    (len : Nat) (s : Engine) : Engine × Bool × List Event :=
  if len = 0 ∨ msg = Option.none then
    (s, false, [Event.logErr .parameter])
  else
    let m := msg.getD []
    let command := m.headD 0
    let r : Engine × Bool :=
      if command = codes.justReset then HandleJustReset s
      else if command = codes.beginSession then HandleBeginSession m len s
      else if command = codes.vendApproved then HandleVendApproved m len s
      else if command = codes.vendDenied then HandleVendDenied s
      else if command = codes.endSession then HandleEndSession s
      else (s, false)
    if r.2 then (r.1, true, []) else (r.1, false, [Event.logErr .sequence])

/-- Recursion of the queue drain: feed each queued frame, in arrival order,
to MDB_ProcessMessage; the `dispatched` event marks each such call. -/
def drainQueue (codes : CmdCodes) :
    List (List Nat) → Engine → Engine × List Event
  | [], s => (s, [])
  | m :: rest, s =>
    let r := MDB_ProcessMessage codes (Option.some m) m.length s
    let rr := drainQueue codes rest r.1
    (rr.1, Event.dispatched m :: (r.2.2 ++ rr.2))

/-- Modelled from the spec: MDB_ProcessMessageQueue is declared in MDB.h but
its body is absent from src; section 4.3 has it drain the queue in arrival
order, feeding each frame to the message handler. -/
def MDB_ProcessMessageQueue (codes : CmdCodes) (s : Engine) :
    Engine × List Event :=
  drainQueue codes s.queue { s with queue := [] }

/-- Environment of one MDB_Poll call: the POLL transmit outcome, the receive
window for the response, and the nested environment used if the POLL
transmit fails and MDB_HandleError(Communication) runs. -/
structure PollEnv where
  pollTxOk : Bool
  rx : RxEnv
  herr : HErrEnv
deriving DecidableEq

/-- MDB_Poll (Mdb.c lines 159-197): return immediately while fewer than
200 ms (uint32 subtraction) have passed since the last accepted poll;
otherwise record the poll time, drain the queued messages first, send the
one-byte POLL command (0x12) — routing a transmit failure to
MDB_HandleError(Communication) — then wait for a response (a failed wait just
returns), process a non-empty response and finally apply the 30-second
session-idle timeout. -/
def MDB_Poll (codes : CmdCodes) (env : PollEnv) (now : Nat) (s : Engine) :
    Engine × List Event :=
  if wsub now s.lastPollTime < 200 then (s, [])
  else
    let s1 := { s with lastPollTime := now }
    let q := MDB_ProcessMessageQueue codes s1
    let r3 := SendCommand [18] env.pollTxOk q.1
    if ¬r3.2.1 then
      let h := MDB_HandleError .communication now env.herr r3.1
      (h.1, q.2 ++ r3.2.2 ++ h.2)
    else
      let wr := waitForResponse env.rx
      let s4 := { r3.1 with lastResponse := wr.frame.headD r3.1.lastResponse }
      if ¬wr.success then (s4, q.2 ++ r3.2.2 ++ wr.events)
      else
        let r5 :=
          if 0 < wr.frame.length then
            MDB_ProcessMessage codes (Option.some wr.frame) wr.frame.length s4
          else (s4, true, [])
        let r6 :=
          if r5.1.state = .sessionIdle ∧ 30000 < wsub now r5.1.sessionTimeout
          then
            let sc := MDB_SessionComplete r5.1
            (sc.1, sc.2.2)
          else (r5.1, ([] : List Event))
        (r6.1, q.2 ++ r3.2.2 ++ wr.events ++ r5.2.2 ++ r6.2)

/-- Modelled from the spec: ParseConfiguration is called by MDB_Initialize
but its body is absent from src; per sections 3 and 4.2 it fills the Config
from the setup response and completes the setup handshake, after which the
state is Disabled.  A response too short to carry configuration fails. -/
def ParseConfiguration (frame : List Nat) (s : Engine) :
    Engine × Bool × List Event :=
  if 2 ≤ frame.length then
    ({ s with configData := frame.dropLast, state := .disabled }, true, [])
  else (s, false, [])

/-- Environment of one MDB_Initialize call: transmit outcomes and receive
windows for the reset handshake and the setup exchange. -/
structure InitEnv where
  resetTxOk : Bool
  resetRx : RxEnv
  setupTxOk : Bool
  setupRx : RxEnv
deriving DecidableEq

/-- MDB_Initialize (Mdb.c lines 38-83): clear config, session and queue, set
the state to Inactive, run the reset handshake, send SETUP (0x11 0x00), wait
for the configuration response, parse it, and enable the reader; any failing
step returns false at once. -/
def MDB_Initialize' (env : InitEnv) (s : Engine) : Engine × Bool × List Event :=
  let s0 := { s with
    configData := [], availableFunds := 0,
    sessionTimeout := 0, queue := [], state := .inactive }
  let r1 := MDB_Reset env.resetTxOk env.resetRx s0
  if ¬r1.2.1 then (r1.1, false, r1.2.2)
  else
    let r2 := SendCommand [17, 0] env.setupTxOk r1.1
    if ¬r2.2.1 then (r2.1, false, r1.2.2 ++ r2.2.2)
    else
      let wr := waitForResponse env.setupRx
      let s3 := { r2.1 with lastResponse := wr.frame.headD r2.1.lastResponse }
      if ¬wr.success then (s3, false, r1.2.2 ++ r2.2.2 ++ wr.events)
      else
        let r4 := ParseConfiguration wr.frame s3
        if ¬r4.2.1 then (r4.1, false, r1.2.2 ++ r2.2.2 ++ wr.events ++ r4.2.2)
        else
          let r5 := MDB_EnableReader r4.1
          if ¬r5.2.1 then
            (r5.1, false, r1.2.2 ++ r2.2.2 ++ wr.events ++ r4.2.2 ++ r5.2.2)
          else (r5.1, true, r1.2.2 ++ r2.2.2 ++ wr.events ++ r4.2.2 ++ r5.2.2)

/-- Projection selecting the queue-dispatch events. -/
def dispatchedOf : Event → Option (List Nat)
  | Event.dispatched m => Option.some m
  | _ => Option.none

/-- Iterated error handling: deliver a list of (kind, tick, environment)
triples to MDB_HandleError, collecting each invocation's event list. -/
def runErrorsEv : List (MDB_Error × Nat × HErrEnv) → Engine →
    Engine × List (List Event)
  | [], s => (s, [])
  | (e, t, v) :: rest, s =>
    let r := MDB_HandleError e t v s
    let rr := runErrorsEv rest r.1
    (rr.1, r.2 :: rr.2)

/-- Every delivery in the run arrives 5000 ms or more (in uint32 tick
arithmetic) after the previously recorded error time. -/
def spacedFrom (last : Nat) : List (MDB_Error × Nat × HErrEnv) → Prop
  | [] => True
  | (_, t, _) :: rest => 5000 ≤ wsub t last ∧ spacedFrom t rest

/-- Two engine states agree on the statistics that only the tail stages of
MDB_HandleError touch: the burst-detector statics, the error log and its
index, the serious-error counter, the queue and the poll clock.  The
per-kind recovery branch never changes these. -/
def statsEq (a b : Engine) : Prop :=
  a.rapidErrorCount = b.rapidErrorCount ∧
  a.lastErrorTime = b.lastErrorTime ∧
  a.errorLogIndex = b.errorLogIndex ∧
  a.errorLog = b.errorLog ∧
  a.seriousErrorCount = b.seriousErrorCount ∧
  a.queue = b.queue ∧
  a.lastPollTime = b.lastPollTime

/-- A transmit/receive environment whose transmits succeed and whose receive
windows deliver nothing, used for concrete evaluations. -/
def quietEnv : HErrEnv := ⟨true, true, true, ⟨Option.none, []⟩⟩

/-- A boot-time engine state in which a one-byte command 0x13 has been
recorded for retry, used for concrete evaluations. -/
def engRetry : Engine :=
  { initialEngine with
    lastCommandBuf := 19 :: List.replicate 35 0, lastCommandLength := 1 }

/-- A boot-time engine state sitting in the Vend session state, used for
concrete evaluations. -/
def engVend : Engine := { initialEngine with state := .vend }

/-- An initialization environment carrying a protocol-correct handshake: all
transmits succeed, the reset response is the single ACK byte 0x00 with
nothing following, and the setup response is the checksum-valid frame
[1, 2, 3]. -/
def goodInitEnv : InitEnv :=
  ⟨true, ⟨Option.some 0, []⟩, true,
    ⟨Option.some 1, [RxEvent.byte 2, RxEvent.byte 3]⟩⟩

/-- On uint32 values with no wrap-around between them, the wrapped
subtraction is the plain difference. -/
theorem wsub_eq_sub (a b : Nat) (h1 : b ≤ a) (h2 : a < 4294967296) :
    wsub a b = a - b := by
  unfold wsub
  omega

/-- A byte stored in a uint8_t slot can never carry the 0x100 mode bit. -/
theorem land256_eq_zero : ∀ x, x < 256 → x &&& 256 = 0 := by decide

/-- The interbyte loop can never exit successfully once the last stored byte
fits in a uint8_t slot: the mode-bit test is dead and the loop runs until a
receive fails or the buffer overflows. -/
theorem interByteLoop_success_false (rxs : List RxEvent) :
    ∀ frame : List Nat, frame.getLastD 0 < 256 →
      (interByteLoop rxs frame).success = false := by
  induction rxs with
  | nil =>
    intro frame h
    rw [interByteLoop.eq_def]
    rw [if_neg (not_not_intro (land256_eq_zero _ h))]
  | cons hd tl ih =>
    intro frame h
    rw [interByteLoop.eq_def]
    rw [if_neg (not_not_intro (land256_eq_zero _ h))]
    cases hd with
    | fail => rfl
    | byte b =>
      simp only []
      split
      · rfl
      · exact ih _ (by
          simp only [List.getLastD_concat]
          exact Nat.mod_lt _ (by norm_num))

/-- WaitForResponse never returns success. -/
theorem waitForResponse_success_false (rx : RxEnv) :
    (waitForResponse rx).success = false := by
  rw [waitForResponse]
  cases rx.first with
  | none => rfl
  | some b =>
    exact interByteLoop_success_false _ _
      (show b % 256 < 256 from Nat.mod_lt _ (by norm_num))

/-- Every event the interbyte loop emits is an MDB_LogError call. -/
theorem interByteLoop_events (rxs : List RxEvent) :
    ∀ frame : List Nat, ∀ e ∈ (interByteLoop rxs frame).events,
      ∃ er, e = Event.logErr er := by
  induction rxs with
  | nil =>
    intro frame e he
    rw [interByteLoop.eq_def] at he
    split at he
    · split at he
      · split at he
        · simp at he; exact ⟨_, he⟩
        · simp at he
      · simp at he
    · simp at he; exact ⟨_, he⟩
  | cons hd tl ih =>
    intro frame e he
    rw [interByteLoop.eq_def] at he
    split at he
    · split at he
      · split at he
        · simp at he; exact ⟨_, he⟩
        · simp at he
      · simp at he
    · cases hd with
      | fail => simp at he; exact ⟨_, he⟩
      | byte b =>
        simp only [] at he
        split at he
        · simp at he; exact ⟨_, he⟩
        · exact ih _ e he

/-- Every event WaitForResponse emits is an MDB_LogError call. -/
theorem waitForResponse_events (rx : RxEnv) :
    ∀ e ∈ (waitForResponse rx).events, ∃ er, e = Event.logErr er := by
  rw [waitForResponse]
  cases rx.first with
  | none => intro e he; simp at he; exact ⟨_, he⟩
  | some b => exact interByteLoop_events _ _

/-- Normal form of SendCommand on an accepted payload. -/
theorem SendCommand_short (p : List Nat) (ok : Bool) (s : Engine)
    (h : p.length ≤ 35) :
    SendCommand p ok s =
      ({ s with
          lastCommandBuf := memcpyList s.lastCommandBuf p p.length,
          lastCommandLength := p.length }, ok,
        Event.tx (p ++ [CalculateChecksum p]) ok ::
          (if ok then [] else [Event.logErr .communication])) := by
  rw [SendCommand, if_neg (by omega)]

/-- Normal form of SendCommand on an oversized payload. -/
theorem SendCommand_long (p : List Nat) (ok : Bool) (s : Engine)
    (h : p.length > 35) :
    SendCommand p ok s = (s, false, [Event.logErr .parameter]) := by
  rw [SendCommand, if_pos h]

/-- Normal form of MDB_Reset: since WaitForResponse can never succeed, a
reset attempt always fails, recording the RESET command as the last command
and never touching the session state. -/
theorem MDB_Reset_eq (ok : Bool) (rx : RxEnv) (s : Engine) :
    MDB_Reset ok rx s =
      (let s1 : Engine := { s with
        lastCommandBuf := memcpyList s.lastCommandBuf [16] 1,
        lastCommandLength := 1 }
      if ok then
        ({ s1 with
            lastResponse := (waitForResponse rx).frame.headD s1.lastResponse },
          false,
          Event.tx [16, 16] true ::
            ((waitForResponse rx).events ++ [Event.logErr .timeout]))
      else
        (s1, false, [Event.tx [16, 16] false, Event.logErr .communication,
          Event.logErr .communication])) := by
  rw [MDB_Reset]
  rw [SendCommand_short _ _ _ (by norm_num)]
  have hc : CalculateChecksum [16] = 16 := rfl
  cases ok with
  | false => simp [hc]
  | true => simp [hc, waitForResponse_success_false]

/-- MDB_Reset always reports failure. -/
theorem MDB_Reset_false (ok : Bool) (rx : RxEnv) (s : Engine) :
    (MDB_Reset ok rx s).2.1 = false := by
  rw [MDB_Reset_eq]
  cases ok <;> rfl

/-- MDB_Reset changes only the lastCommand buffer and the lastResponse byte:
in particular the session state, the retry counter, the burst-detector
statics, the error log and the queue are untouched. -/
theorem MDB_Reset_fields (ok : Bool) (rx : RxEnv) (s : Engine) :
    (MDB_Reset ok rx s).1.state = s.state ∧
    (MDB_Reset ok rx s).1.retryCount = s.retryCount ∧
    (MDB_Reset ok rx s).1.rapidErrorCount = s.rapidErrorCount ∧
    (MDB_Reset ok rx s).1.lastErrorTime = s.lastErrorTime ∧
    (MDB_Reset ok rx s).1.seriousErrorCount = s.seriousErrorCount ∧
    (MDB_Reset ok rx s).1.errorLogIndex = s.errorLogIndex ∧
    (MDB_Reset ok rx s).1.errorLog = s.errorLog ∧
    (MDB_Reset ok rx s).1.queue = s.queue ∧
    (MDB_Reset ok rx s).1.lastPollTime = s.lastPollTime ∧
    (MDB_Reset ok rx s).1.availableFunds = s.availableFunds ∧
    (MDB_Reset ok rx s).1.sessionTimeout = s.sessionTimeout := by
  rw [MDB_Reset_eq]
  cases ok <;> simp

/-- Every event MDB_Reset emits is either the RESET transmit or an
MDB_LogError call. -/
theorem MDB_Reset_events (ok : Bool) (rx : RxEnv) (s : Engine) :
    ∀ e ∈ (MDB_Reset ok rx s).2.2,
      e = Event.tx [16, 16] ok ∨ ∃ er, e = Event.logErr er := by
  rw [MDB_Reset_eq]
  cases ok with
  | false =>
    intro e he
    simp at he
    rcases he with h | h
    · exact Or.inl h
    · exact Or.inr ⟨_, h⟩
  | true =>
    intro e he
    simp at he
    rcases he with h | h | h
    · exact Or.inl h
    · exact Or.inr (waitForResponse_events _ _ h)
    · exact Or.inr ⟨_, h⟩

/-- SendCommand leaves the handler statistics untouched. -/
theorem SendCommand_statsEq (p : List Nat) (ok : Bool) (s : Engine) :
    statsEq (SendCommand p ok s).1 s := by
  rw [SendCommand]
  split <;> simp [statsEq]

/-- MDB_Reset leaves the handler statistics untouched. -/
theorem MDB_Reset_statsEq (ok : Bool) (rx : RxEnv) (s : Engine) :
    statsEq (MDB_Reset ok rx s).1 s := by
  rw [MDB_Reset_eq]
  cases ok <;> simp [statsEq]

/-- The per-kind recovery branch of MDB_HandleError leaves the handler
statistics (burst statics, error log, serious counter, queue, poll clock)
untouched, for every error kind. -/
theorem handleBranch_statsEq (err : MDB_Error) (env : HErrEnv) (s : Engine) :
    statsEq (handleBranch err env s).1 s := by
  cases err <;> rw [handleBranch] <;> (repeat' split) <;>
    first
      | exact MDB_Reset_statsEq _ _ _
      | exact SendCommand_statsEq _ _ _
      | simp [statsEq, MDB_Reset_eq, SendCommand, MDB_DisableReader,
          MDB_EnableReader, MDB_SessionComplete, MDB_VendFailure] <;>
        (repeat' split) <;> simp [statsEq]

/-- Field characterization of the burst detector: only the rolling counter,
the recorded error time and (when it fires, through MDB_DisableReader) the
session state change; the event list is the reader-disable call exactly when
the detector fires. -/
theorem burstUpdate_fields (now : Nat) (s : Engine) :
    (burstUpdate now s).1.retryCount = s.retryCount ∧
    (burstUpdate now s).1.lastCommandBuf = s.lastCommandBuf ∧
    (burstUpdate now s).1.lastCommandLength = s.lastCommandLength ∧
    (burstUpdate now s).1.lastResponse = s.lastResponse ∧
    (burstUpdate now s).1.seriousErrorCount = s.seriousErrorCount ∧
    (burstUpdate now s).1.errorLogIndex = s.errorLogIndex ∧
    (burstUpdate now s).1.errorLog = s.errorLog ∧
    (burstUpdate now s).1.queue = s.queue ∧
    (burstUpdate now s).1.lastPollTime = s.lastPollTime ∧
    (burstUpdate now s).1.lastErrorTime = now ∧
    (burstUpdate now s).2 =
      (if wsub now s.lastErrorTime < 5000 ∧ 5 < (s.rapidErrorCount + 1) % 256
       then [Event.disableReader] else []) ∧
    (burstUpdate now s).1.rapidErrorCount =
      (if wsub now s.lastErrorTime < 5000 then
        (if 5 < (s.rapidErrorCount + 1) % 256 then 0
         else (s.rapidErrorCount + 1) % 256)
       else 0) := by
  rw [burstUpdate]
  by_cases h1 : wsub now s.lastErrorTime < 5000
  · by_cases h2 : 5 < (s.rapidErrorCount + 1) % 256
    · simp only [h1, h2, if_true, if_pos, MDB_DisableReader]
      split <;> simp [h1, h2]
    · simp [h1, h2]
  · simp [h1]

/-- Field characterization of the error-log append stage. -/
theorem appendErrorLog_fields (err : MDB_Error) (now : Nat) (s : Engine) :
    (appendErrorLog err now s).state = s.state ∧
    (appendErrorLog err now s).retryCount = s.retryCount ∧
    (appendErrorLog err now s).rapidErrorCount = s.rapidErrorCount ∧
    (appendErrorLog err now s).lastErrorTime = s.lastErrorTime ∧
    (appendErrorLog err now s).seriousErrorCount = s.seriousErrorCount ∧
    (appendErrorLog err now s).lastCommandBuf = s.lastCommandBuf ∧
    (appendErrorLog err now s).lastCommandLength = s.lastCommandLength ∧
    (appendErrorLog err now s).lastResponse = s.lastResponse ∧
    (appendErrorLog err now s).queue = s.queue ∧
    (appendErrorLog err now s).lastPollTime = s.lastPollTime ∧
    (appendErrorLog err now s).errorLogIndex = (s.errorLogIndex + 1) % 50 ∧
    (appendErrorLog err now s).errorLog = (fun j =>
      if j = s.errorLogIndex then
        (⟨now, err, s.state, s.lastCommandBuf.getD 0 0, s.lastResponse⟩ :
          ErrEntry)
      else s.errorLog j) := by
  simp [appendErrorLog]

/-- Field characterization of the serious-error stage: only the serious
counter changes, the only possible event is the log dump, and error kinds
other than Hardware and Communication leave the stage inert. -/
theorem seriousUpdate_fields (err : MDB_Error) (s : Engine) :
    (seriousUpdate err s).1.state = s.state ∧
    (seriousUpdate err s).1.retryCount = s.retryCount ∧
    (seriousUpdate err s).1.rapidErrorCount = s.rapidErrorCount ∧
    (seriousUpdate err s).1.lastErrorTime = s.lastErrorTime ∧
    (seriousUpdate err s).1.errorLogIndex = s.errorLogIndex ∧
    (seriousUpdate err s).1.errorLog = s.errorLog ∧
    (seriousUpdate err s).1.lastCommandBuf = s.lastCommandBuf ∧
    (seriousUpdate err s).1.lastCommandLength = s.lastCommandLength ∧
    (seriousUpdate err s).1.lastResponse = s.lastResponse ∧
    (seriousUpdate err s).1.queue = s.queue ∧
    (seriousUpdate err s).1.lastPollTime = s.lastPollTime ∧
    ((seriousUpdate err s).2 = [] ∨ (seriousUpdate err s).2 = [Event.dumpLogs]) ∧
    (err ≠ .hardware → err ≠ .communication → seriousUpdate err s = (s, [])) := by
  rw [seriousUpdate]
  by_cases h : err = MDB_Error.hardware ∨ err = MDB_Error.communication
  · rw [if_pos h]
    by_cases h2 : 3 ≤ (s.seriousErrorCount + 1) % 256
    · rw [if_pos h2]
      exact ⟨rfl, rfl, rfl, rfl, rfl, rfl, rfl, rfl, rfl, rfl, rfl,
        Or.inr rfl, fun h3 h4 => h.elim (fun hh => absurd hh h3)
          (fun hh => absurd hh h4)⟩
    · rw [if_neg h2]
      exact ⟨rfl, rfl, rfl, rfl, rfl, rfl, rfl, rfl, rfl, rfl, rfl,
        Or.inl rfl, fun h3 h4 => h.elim (fun hh => absurd hh h3)
          (fun hh => absurd hh h4)⟩
  · rw [if_neg h]
    exact ⟨rfl, rfl, rfl, rfl, rfl, rfl, rfl, rfl, rfl, rfl, rfl,
      Or.inl rfl, fun _ _ => rfl⟩

/-- Events emitted by SendCommand are the transmit attempt and MDB_LogError
calls only. -/
theorem SendCommand_events (p : List Nat) (ok : Bool) (s : Engine) :
    ∀ e ∈ (SendCommand p ok s).2.2,
      (∃ fr okk, e = Event.tx fr okk) ∨ ∃ er, e = Event.logErr er := by
  rw [SendCommand]
  split <;> intro e he <;> simp at he
  · exact Or.inr ⟨_, he⟩
  · rcases he with h | h
    · exact Or.inl ⟨_, _, h⟩
    · rcases h with ⟨h1, h2⟩
      exact Or.inr ⟨_, h2⟩

/-- The event list of MDB_HandleError is the top MDB_LogError call followed
by the branch, burst-detector and serious-error events, in order. -/
theorem MDB_HandleError_events_decomp (err : MDB_Error) (now : Nat)
    (env : HErrEnv) (s : Engine) :
    (MDB_HandleError err now env s).2 =
      Event.logErr err :: ((handleBranch err env s).2 ++
        (burstUpdate now (handleBranch err env s).1).2 ++
        (seriousUpdate err (appendErrorLog err now
          (burstUpdate now (handleBranch err env s).1).1)).2) := rfl

/-- Each MDB_HandleError invocation records its tick as the last error time. -/
theorem MDB_HandleError_lastErrorTime (err : MDB_Error) (now : Nat)
    (env : HErrEnv) (s : Engine) :
    (MDB_HandleError err now env s).1.lastErrorTime = now := by
  obtain ⟨_, _, _, _, _, _, _, _, _, h10, _, _⟩ :=
    burstUpdate_fields now (handleBranch err env s).1
  obtain ⟨_, _, _, ha4, _⟩ := appendErrorLog_fields err now
    (burstUpdate now (handleBranch err env s).1).1
  obtain ⟨_, _, _, hs4, _⟩ := seriousUpdate_fields err
    (appendErrorLog err now (burstUpdate now (handleBranch err env s).1).1)
  show (seriousUpdate err (appendErrorLog err now
    (burstUpdate now (handleBranch err env s).1).1)).1.lastErrorTime = now
  rw [hs4, ha4, h10]

/-- The rolling rapid-error counter after one MDB_HandleError invocation, as
a function of the gap to the previously recorded error time. -/
theorem MDB_HandleError_rapid (err : MDB_Error) (now : Nat)
    (env : HErrEnv) (s : Engine) :
    (MDB_HandleError err now env s).1.rapidErrorCount =
      (if wsub now s.lastErrorTime < 5000 then
        (if 5 < (s.rapidErrorCount + 1) % 256 then 0
         else (s.rapidErrorCount + 1) % 256)
       else 0) := by
  obtain ⟨hb1, hb2, _⟩ := handleBranch_statsEq err env s
  obtain ⟨_, _, _, _, _, _, _, _, _, _, _, h12⟩ :=
    burstUpdate_fields now (handleBranch err env s).1
  obtain ⟨_, _, ha3, _⟩ := appendErrorLog_fields err now
    (burstUpdate now (handleBranch err env s).1).1
  obtain ⟨_, _, hs3, _⟩ := seriousUpdate_fields err
    (appendErrorLog err now (burstUpdate now (handleBranch err env s).1).1)
  show (seriousUpdate err (appendErrorLog err now
    (burstUpdate now (handleBranch err env s).1).1)).1.rapidErrorCount = _
  rw [hs3, ha3, h12, hb1, hb2]

/-- When the burst detector fires, the invocation emits the reader-disable
call. -/
theorem MDB_HandleError_fire (err : MDB_Error) (now : Nat)
    (env : HErrEnv) (s : Engine)
    (h1 : wsub now s.lastErrorTime < 5000)
    (h2 : 5 < (s.rapidErrorCount + 1) % 256) :
    Event.disableReader ∈ (MDB_HandleError err now env s).2 := by
  rw [MDB_HandleError_events_decomp]
  obtain ⟨_, hb2, _⟩ := handleBranch_statsEq err env s
  obtain ⟨hb1, _⟩ := handleBranch_statsEq err env s
  obtain ⟨_, _, _, _, _, _, _, _, _, _, h11, _⟩ :=
    burstUpdate_fields now (handleBranch err env s).1
  rw [hb1, hb2] at h11
  rw [h11, if_pos ⟨h1, h2⟩]
  simp

/-- No recovery branch other than Hardware and Communication ever calls
MDB_DisableReader. -/
theorem handleBranch_noDisable (err : MDB_Error) (env : HErrEnv) (s : Engine)
    (h1 : err ≠ MDB_Error.hardware) (h2 : err ≠ MDB_Error.communication) :
    Event.disableReader ∉ (handleBranch err env s).2 := by
  intro hmem
  cases err
  case hardware => exact h1 rfl
  case communication => exact h2 rfl
  all_goals
    simp only [handleBranch] at hmem
    (repeat' split at hmem) <;>
      solve
        | (rcases MDB_Reset_events _ _ _ _ hmem with h | ⟨er, h⟩ <;> simp at h)
        | (rcases SendCommand_events _ _ _ _ hmem with ⟨fr, okk, h⟩ | ⟨er, h⟩ <;>
            simp at h)
        | simp [MDB_SessionComplete] at hmem
        | (rw [MDB_VendFailure] at hmem; split at hmem <;> simp at hmem)

/-- Recording a payload read back from the buffer itself leaves the buffer
unchanged, as the C memcpy from lastCommand onto itself does. -/
theorem memcpy_take_self (l : List Nat) (n : Nat) :
    memcpyList l (l.take n) n = l := by
  rw [memcpyList, List.take_take]
  simp [List.take_append_drop]

/-- An invocation with neither a Hardware nor a Communication error, arriving
5000 ms or more after the previously recorded error, never calls
MDB_DisableReader. -/
theorem MDB_HandleError_noDisable (err : MDB_Error) (now : Nat)
    (env : HErrEnv) (s : Engine)
    (h1 : err ≠ MDB_Error.hardware) (h2 : err ≠ MDB_Error.communication)
    (h3 : ¬ wsub now s.lastErrorTime < 5000) :
    Event.disableReader ∉ (MDB_HandleError err now env s).2 := by
  rw [MDB_HandleError_events_decomp]
  intro hmem
  simp only [List.mem_cons, List.mem_append] at hmem
  rcases hmem with h | (h | h) | h
  · simp at h
  · exact handleBranch_noDisable err env s h1 h2 h
  · obtain ⟨_, hb2, _⟩ := handleBranch_statsEq err env s
    obtain ⟨_, _, _, _, _, _, _, _, _, _, h11, _⟩ :=
      burstUpdate_fields now (handleBranch err env s).1
    rw [hb2] at h11
    rw [h11, if_neg (by intro hc; exact h3 hc.1)] at h
    simp at h
  · obtain ⟨_, _, _, _, _, _, _, _, _, _, _, hev, _⟩ :=
      seriousUpdate_fields err (appendErrorLog err now
        (burstUpdate now (handleBranch err env s).1).1)
    rcases hev with he | he <;> rw [he] at h <;> simp at h

/-- The retry counter after MDB_HandleError is the one the recovery branch
left, unchanged by the tail stages. -/
theorem MDB_HandleError_retryCount (err : MDB_Error) (now : Nat)
    (env : HErrEnv) (s : Engine) :
    (MDB_HandleError err now env s).1.retryCount =
      (handleBranch err env s).1.retryCount := by
  obtain ⟨hb1, _⟩ := burstUpdate_fields now (handleBranch err env s).1
  obtain ⟨_, ha2, _⟩ := appendErrorLog_fields err now
    (burstUpdate now (handleBranch err env s).1).1
  obtain ⟨_, hs2, _⟩ := seriousUpdate_fields err
    (appendErrorLog err now (burstUpdate now (handleBranch err env s).1).1)
  show (seriousUpdate err (appendErrorLog err now
    (burstUpdate now (handleBranch err env s).1).1)).1.retryCount = _
  rw [hs2, ha2, hb1]

/-- The lastCommand retry buffer after MDB_HandleError is the one the
recovery branch left, unchanged by the tail stages. -/
theorem MDB_HandleError_cmd (err : MDB_Error) (now : Nat)
    (env : HErrEnv) (s : Engine) :
    (MDB_HandleError err now env s).1.lastCommandBuf =
      (handleBranch err env s).1.lastCommandBuf ∧
    (MDB_HandleError err now env s).1.lastCommandLength =
      (handleBranch err env s).1.lastCommandLength := by
  obtain ⟨_, hb2, hb3, _⟩ := burstUpdate_fields now (handleBranch err env s).1
  obtain ⟨_, _, _, _, _, ha6, ha7, _⟩ := appendErrorLog_fields err now
    (burstUpdate now (handleBranch err env s).1).1
  obtain ⟨_, _, _, _, _, _, hs7, hs8, _⟩ := seriousUpdate_fields err
    (appendErrorLog err now (burstUpdate now (handleBranch err env s).1).1)
  constructor
  · show (seriousUpdate err (appendErrorLog err now
      (burstUpdate now (handleBranch err env s).1).1)).1.lastCommandBuf = _
    rw [hs7, ha6, hb2]
  · show (seriousUpdate err (appendErrorLog err now
      (burstUpdate now (handleBranch err env s).1).1)).1.lastCommandLength = _
    rw [hs8, ha7, hb3]

/-- The message queue is untouched by MDB_HandleError. -/
theorem MDB_HandleError_queue (err : MDB_Error) (now : Nat)
    (env : HErrEnv) (s : Engine) :
    (MDB_HandleError err now env s).1.queue = s.queue := by
  obtain ⟨_, _, _, _, _, hq0, _⟩ := handleBranch_statsEq err env s
  obtain ⟨_, _, _, _, _, _, _, hb8, _⟩ :=
    burstUpdate_fields now (handleBranch err env s).1
  obtain ⟨_, _, _, _, _, _, _, _, ha9, _⟩ := appendErrorLog_fields err now
    (burstUpdate now (handleBranch err env s).1).1
  obtain ⟨_, _, _, _, _, _, _, _, _, hs10, _⟩ := seriousUpdate_fields err
    (appendErrorLog err now (burstUpdate now (handleBranch err env s).1).1)
  show (seriousUpdate err (appendErrorLog err now
    (burstUpdate now (handleBranch err env s).1).1)).1.queue = _
  rw [hs10, ha9, hb8, hq0]

/-- Events of the recovery branch are carried into the full invocation. -/
theorem MDB_HandleError_branch_mem (err : MDB_Error) (now : Nat)
    (env : HErrEnv) (s : Engine) {e : Event}
    (h : e ∈ (handleBranch err env s).2) :
    e ∈ (MDB_HandleError err now env s).2 := by
  rw [MDB_HandleError_events_decomp]
  simp [h]

/-- The nak branch while retryCount < 3: the retry counter increments and
the recorded command is retransmitted with its checksum appended; the
recorded command itself is unchanged.  The buffer-shape hypotheses are the
invariants the C code maintains for lastCommand. -/
theorem handleBranch_nak_lt (env : HErrEnv) (s : Engine)
    (h1 : s.retryCount < 3) (h2 : 0 < s.lastCommandLength)
    (h3 : s.lastCommandLength ≤ 35)
    (h4 : s.lastCommandLength ≤ s.lastCommandBuf.length) :
    handleBranch .nak env s =
      ({ s with retryCount := s.retryCount + 1 },
        Event.tx (s.lastCommandBuf.take s.lastCommandLength ++
            [CalculateChecksum (s.lastCommandBuf.take s.lastCommandLength)])
          env.resendTxOk ::
          (if env.resendTxOk then [] else [Event.logErr .communication])) := by
  have hlen : (s.lastCommandBuf.take s.lastCommandLength).length =
      s.lastCommandLength := by
    simp [List.length_take, Nat.min_eq_left h4]
  simp only [handleBranch]
  rw [if_pos h1]
  rw [if_pos h2]
  rw [SendCommand_short _ _ _ (by rw [hlen]; exact h3)]
  simp [memcpy_take_self, hlen]

/-- The nak branch once retryCount has reached 3: the counter is cleared and
a full MDB_Reset is forced. -/
theorem handleBranch_nak_ge (env : HErrEnv) (s : Engine)
    (h1 : ¬ s.retryCount < 3) :
    handleBranch .nak env s =
      ((MDB_Reset env.resetTxOk env.resetRx { s with retryCount := 0 }).1,
        (MDB_Reset env.resetTxOk env.resetRx { s with retryCount := 0 }).2.2) := by
  simp only [handleBranch]
  rw [if_neg h1]

/-- On the capped nak, every transmit the invocation performs carries the
RESET frame: no resend of the recorded command happens. -/
theorem MDB_HandleError_nak_ge_tx (now : Nat) (env : HErrEnv) (s : Engine)
    (h1 : ¬ s.retryCount < 3) :
    ∀ fr ok', Event.tx fr ok' ∈ (MDB_HandleError .nak now env s).2 →
      fr = [16, 16] := by
  intro fr ok' hmem
  rw [MDB_HandleError_events_decomp] at hmem
  simp only [List.mem_cons, List.mem_append] at hmem
  rcases hmem with h | (h | h) | h
  · simp at h
  · rw [handleBranch_nak_ge _ _ h1] at h
    rcases MDB_Reset_events _ _ _ _ h with h2 | ⟨er, h2⟩
    · simp at h2
      exact h2.1
    · simp at h2
  · obtain ⟨_, _, _, _, _, _, _, _, _, _, h11, _⟩ :=
      burstUpdate_fields now (handleBranch .nak env s).1
    rw [h11] at h
    split at h <;> simp at h
  · obtain ⟨_, _, _, _, _, _, _, _, _, _, _, hev, _⟩ :=
      seriousUpdate_fields .nak (appendErrorLog .nak now
        (burstUpdate now (handleBranch .nak env s).1).1)
    rcases hev with he | he <;> rw [he] at h <;> simp at h

/-- The error-log append of one invocation: the index advances modulo 50,
the written entry carries the invocation tick and the error kind, and every
other slot is untouched. -/
theorem MDB_HandleError_log (err : MDB_Error) (now : Nat)
    (env : HErrEnv) (s : Engine) :
    (MDB_HandleError err now env s).1.errorLogIndex =
      (s.errorLogIndex + 1) % 50 ∧
    ((MDB_HandleError err now env s).1.errorLog s.errorLogIndex).timestamp
      = now ∧
    ((MDB_HandleError err now env s).1.errorLog s.errorLogIndex).error
      = err ∧
    ∀ j, j ≠ s.errorLogIndex →
      (MDB_HandleError err now env s).1.errorLog j = s.errorLog j := by
  obtain ⟨_, _, hbi, hbl, _⟩ := handleBranch_statsEq err env s
  obtain ⟨_, _, _, _, _, hui, hul, _⟩ :=
    burstUpdate_fields now (handleBranch err env s).1
  obtain ⟨_, _, _, _, _, _, _, _, _, _, hai, hal⟩ := appendErrorLog_fields
    err now (burstUpdate now (handleBranch err env s).1).1
  obtain ⟨_, _, _, _, hsi, hsl, _⟩ := seriousUpdate_fields err
    (appendErrorLog err now (burstUpdate now (handleBranch err env s).1).1)
  have hidx : (burstUpdate now (handleBranch err env s).1).1.errorLogIndex
      = s.errorLogIndex := by rw [hui, hbi]
  refine ⟨?_, ?_, ?_, ?_⟩
  · show (seriousUpdate err (appendErrorLog err now
      (burstUpdate now (handleBranch err env s).1).1)).1.errorLogIndex = _
    rw [hsi, hai, hidx]
  · show ((seriousUpdate err (appendErrorLog err now
      (burstUpdate now (handleBranch err env s).1).1)).1.errorLog
        s.errorLogIndex).timestamp = now
    rw [hsl, hal]
    simp [hidx]
  · show ((seriousUpdate err (appendErrorLog err now
      (burstUpdate now (handleBranch err env s).1).1)).1.errorLog
        s.errorLogIndex).error = err
    rw [hsl, hal]
    simp [hidx]
  · intro j hj
    show ((seriousUpdate err (appendErrorLog err now
      (burstUpdate now (handleBranch err env s).1).1)).1.errorLog j) = _
    rw [hsl, hal]
    simp only [hidx, if_neg hj]
    rw [hul, hbl]

/-- C1: the claim asserts that a received input of a single control byte
carrying the frame-terminating marker (e.g. ACK 0x00) with no further bytes
makes waitForResponse return success with a one-byte frame.  On the code the
marker test of bit 0x100 is applied to a uint8_t slot and can never be
true, so on exactly that input the interbyte read fails and the function
logs Communication and returns false; more generally no receive behaviour
whatever makes WaitForResponse succeed. -/
theorem C1_waitForResponse_never_terminates :
    waitForResponse ⟨Option.some 0, []⟩ =
      ⟨false, [0], [Event.logErr MDB_Error.communication]⟩ ∧
    ∀ rx : RxEnv, (waitForResponse rx).success = false :=
  ⟨rfl, waitForResponse_success_false⟩

/-- C7: sendCommand rejects a payload longer than 35 bytes with a Parameter
error, without transmitting and without touching the engine state; an
accepted payload is recorded as the last command (overwriting the retry
state), transmitted with the checksum byte appended, length + 1 bytes in
all, and a transport write failure yields a Communication failure. -/
theorem C7_sendCommand_contract :
    ∀ (payload : List Nat) (txOk : Bool) (s : Engine),
      (payload.length > 35 →
        SendCommand payload txOk s =
          (s, false, [Event.logErr MDB_Error.parameter])) ∧
      (payload.length ≤ 35 →
        (SendCommand payload txOk s).1.lastCommandLength = payload.length ∧
        (SendCommand payload txOk s).1.lastCommandBuf.take payload.length
          = payload ∧
        Event.tx (payload ++ [CalculateChecksum payload]) txOk
          ∈ (SendCommand payload txOk s).2.2 ∧
        (payload ++ [CalculateChecksum payload]).length = payload.length + 1 ∧
        (txOk = true → (SendCommand payload txOk s).2.1 = true) ∧
        (txOk = false → (SendCommand payload txOk s).2.1 = false ∧
          Event.logErr MDB_Error.communication
            ∈ (SendCommand payload txOk s).2.2)) := by
  intro p ok s
  constructor
  · intro h
    exact SendCommand_long p ok s h
  · intro h
    rw [SendCommand_short p ok s h]
    refine ⟨rfl, ?_, by simp, by simp, fun ht => ht, fun ht => ?_⟩
    · show (memcpyList s.lastCommandBuf p p.length).take p.length = p
      rw [memcpyList, List.take_length]
      exact List.take_left p _
    · subst ht
      simp

/-- Witness for C7 at a 36-byte payload (rejected) and a one-byte payload
with a failing transport write. -/
theorem C7_sendCommand_contract_witness :
    SendCommand (List.replicate 36 0) true initialEngine =
      (initialEngine, false, [Event.logErr MDB_Error.parameter]) ∧
    Event.tx ([18] ++ [CalculateChecksum [18]]) false
      ∈ (SendCommand [18] false initialEngine).2.2 :=
  ⟨(C7_sendCommand_contract (List.replicate 36 0) true initialEngine).1
      (by decide),
    (((C7_sendCommand_contract [18] false initialEngine).2
      (by decide)).2.2.1)⟩

/-- C9: a call of the message handler with a null message pointer or a zero
length logs a Parameter error and returns false, dispatching nothing and
leaving the whole engine state (the session state included) unchanged. -/
theorem C9_processMessage_rejects_null_or_empty :
    ∀ (codes : CmdCodes) (msg : Option (List Nat)) (len : Nat) (s : Engine),
      len = 0 ∨ msg = Option.none →
      MDB_ProcessMessage codes msg len s =
        (s, false, [Event.logErr MDB_Error.parameter]) := by
  intro codes msg len s h
  rw [MDB_ProcessMessage, if_pos h]

/-- Witness for C9 at a null pointer of positive length and at a zero
length with a non-null pointer. -/
theorem C9_processMessage_rejects_null_or_empty_witness :
    MDB_ProcessMessage ⟨1, 2, 3, 4, 5⟩ Option.none 7 initialEngine =
      (initialEngine, false, [Event.logErr MDB_Error.parameter]) ∧
    MDB_ProcessMessage ⟨1, 2, 3, 4, 5⟩ (Option.some [9]) 0 initialEngine =
      (initialEngine, false, [Event.logErr MDB_Error.parameter]) :=
  ⟨C9_processMessage_rejects_null_or_empty _ _ _ _ (Or.inr rfl),
    C9_processMessage_rejects_null_or_empty _ _ _ _ (Or.inl rfl)⟩

/-- C10: a message whose first byte is none of the five handled device
commands falls to the default branch: the handler returns false, logs a
Sequence error, and leaves the whole engine state (the session state
included) unchanged. -/
theorem C10_processMessage_unknown_command :
    ∀ (codes : CmdCodes) (m : List Nat) (len : Nat) (s : Engine),
      len ≠ 0 →
      m.headD 0 ≠ codes.justReset → m.headD 0 ≠ codes.beginSession →
      m.headD 0 ≠ codes.vendApproved → m.headD 0 ≠ codes.vendDenied →
      m.headD 0 ≠ codes.endSession →
      MDB_ProcessMessage codes (Option.some m) len s =
        (s, false, [Event.logErr MDB_Error.sequence]) := by
  intro codes m len s h0 h1 h2 h3 h4 h5
  simp only [MDB_ProcessMessage]
  rw [if_neg (by simp [h0])]
  simp only [Option.getD_some]
  rw [if_neg h1, if_neg h2, if_neg h3, if_neg h4, if_neg h5]
  rfl

/-- Witness for C10 at a concrete unknown first byte. -/
theorem C10_processMessage_unknown_command_witness :
    MDB_ProcessMessage ⟨1, 2, 3, 4, 5⟩ (Option.some [153, 7]) 2 initialEngine =
      (initialEngine, false, [Event.logErr MDB_Error.sequence]) :=
  C10_processMessage_unknown_command ⟨1, 2, 3, 4, 5⟩ [153, 7] 2 initialEngine
    (by decide) (by decide) (by decide) (by decide) (by decide) (by decide)

/-- C6: handling a Timeout error forces a full protocol reset (observable as
the RESET-frame transmit attempt of the nested MDB_Reset) exactly when the
session state is not Inactive; from Inactive no reset happens. -/
theorem C6_timeout_resets_iff_not_inactive :
    ∀ (now : Nat) (env : HErrEnv) (s : Engine),
      (Event.tx [16, 16] env.resetTxOk ∈
        (MDB_HandleError MDB_Error.timeout now env s).2) ↔
      s.state ≠ MDB_State.inactive := by
  intro now env s
  constructor
  · intro hmem hstate
    rw [MDB_HandleError_events_decomp] at hmem
    simp only [List.mem_cons, List.mem_append] at hmem
    rcases hmem with h | (h | h) | h
    · simp at h
    · rw [show handleBranch .timeout env s = (s, []) from by
        simp only [handleBranch]
        rw [if_neg (by simp [hstate])]] at h
      simp at h
    · obtain ⟨_, _, _, _, _, _, _, _, _, _, h11, _⟩ :=
        burstUpdate_fields now (handleBranch .timeout env s).1
      rw [h11] at h
      split at h <;> simp at h
    · obtain ⟨_, _, _, _, _, _, _, _, _, _, _, hev, _⟩ :=
        seriousUpdate_fields .timeout (appendErrorLog .timeout now
          (burstUpdate now (handleBranch .timeout env s).1).1)
      rcases hev with he | he <;> rw [he] at h <;> simp at h
  · intro hstate
    apply MDB_HandleError_branch_mem
    simp only [handleBranch]
    rw [if_pos hstate]
    rw [MDB_Reset_eq]
    cases htx : env.resetTxOk <;> simp

/-- C2: from a cleared retry counter with a recorded last command, each of
the first three consecutive NAK errors resends the recorded command (its
checksummed frame is transmitted) and increments the retry counter; the 4th
consecutive NAK performs no resend, clears the counter and forces a full
reset (the RESET frame is transmitted instead).  The buffer-shape
hypotheses are the invariants the C code maintains for lastCommand, and the
recorded command is assumed distinct from the one-byte RESET command so that
a resend and a reset transmit are distinguishable frames. -/
theorem C2_nak_retry_cap :
    ∀ (s : Engine) (t1 t2 t3 t4 : Nat) (v1 v2 v3 v4 : HErrEnv),
      s.retryCount = 0 → 0 < s.lastCommandLength →
      s.lastCommandLength ≤ 35 →
      s.lastCommandLength ≤ s.lastCommandBuf.length →
      s.lastCommandBuf.take s.lastCommandLength ≠ [16] →
      (let cmd := s.lastCommandBuf.take s.lastCommandLength
       let fr := cmd ++ [CalculateChecksum cmd]
       let r1 := MDB_HandleError .nak t1 v1 s
       let r2 := MDB_HandleError .nak t2 v2 r1.1
       let r3 := MDB_HandleError .nak t3 v3 r2.1
       let r4 := MDB_HandleError .nak t4 v4 r3.1
       (r1.1.retryCount = 1 ∧ Event.tx fr v1.resendTxOk ∈ r1.2) ∧
       (r2.1.retryCount = 2 ∧ Event.tx fr v2.resendTxOk ∈ r2.2) ∧
       (r3.1.retryCount = 3 ∧ Event.tx fr v3.resendTxOk ∈ r3.2) ∧
       (r4.1.retryCount = 0 ∧ Event.tx [16, 16] v4.resetTxOk ∈ r4.2 ∧
        ∀ ok, Event.tx fr ok ∉ r4.2)) := by
  intro s t1 t2 t3 t4 v1 v2 v3 v4 h0 h2 h3 h4 hne
  have B1 := handleBranch_nak_lt v1 s (by omega) h2 h3 h4
  have R1r : (MDB_HandleError .nak t1 v1 s).1.retryCount = 1 := by
    rw [MDB_HandleError_retryCount, B1]
    simp [h0]
  have R1buf : (MDB_HandleError .nak t1 v1 s).1.lastCommandBuf
      = s.lastCommandBuf := by
    rw [(MDB_HandleError_cmd .nak t1 v1 s).1, B1]
  have R1len : (MDB_HandleError .nak t1 v1 s).1.lastCommandLength
      = s.lastCommandLength := by
    rw [(MDB_HandleError_cmd .nak t1 v1 s).2, B1]
  have R1m : Event.tx (s.lastCommandBuf.take s.lastCommandLength ++
      [CalculateChecksum (s.lastCommandBuf.take s.lastCommandLength)])
      v1.resendTxOk ∈ (MDB_HandleError .nak t1 v1 s).2 := by
    apply MDB_HandleError_branch_mem
    rw [B1]
    simp
  have B2 := handleBranch_nak_lt v2 (MDB_HandleError .nak t1 v1 s).1
    (by rw [R1r]; omega) (by rw [R1len]; exact h2)
    (by rw [R1len]; exact h3) (by rw [R1len, R1buf]; exact h4)
  have R2r : (MDB_HandleError .nak t2 v2
      (MDB_HandleError .nak t1 v1 s).1).1.retryCount = 2 := by
    rw [MDB_HandleError_retryCount, B2]
    simp [R1r]
  have R2buf : (MDB_HandleError .nak t2 v2
      (MDB_HandleError .nak t1 v1 s).1).1.lastCommandBuf
      = s.lastCommandBuf := by
    rw [(MDB_HandleError_cmd .nak t2 v2 _).1, B2]
    simpa using R1buf
  have R2len : (MDB_HandleError .nak t2 v2
      (MDB_HandleError .nak t1 v1 s).1).1.lastCommandLength
      = s.lastCommandLength := by
    rw [(MDB_HandleError_cmd .nak t2 v2 _).2, B2]
    simpa using R1len
  have R2m : Event.tx (s.lastCommandBuf.take s.lastCommandLength ++
      [CalculateChecksum (s.lastCommandBuf.take s.lastCommandLength)])
      v2.resendTxOk ∈ (MDB_HandleError .nak t2 v2
        (MDB_HandleError .nak t1 v1 s).1).2 := by
    apply MDB_HandleError_branch_mem
    rw [B2, R1buf, R1len]
    simp
  have B3 := handleBranch_nak_lt v3 (MDB_HandleError .nak t2 v2
      (MDB_HandleError .nak t1 v1 s).1).1
    (by rw [R2r]; omega) (by rw [R2len]; exact h2)
    (by rw [R2len]; exact h3) (by rw [R2len, R2buf]; exact h4)
  have R3r : (MDB_HandleError .nak t3 v3 (MDB_HandleError .nak t2 v2
      (MDB_HandleError .nak t1 v1 s).1).1).1.retryCount = 3 := by
    rw [MDB_HandleError_retryCount, B3]
    simp [R2r]
  have R3m : Event.tx (s.lastCommandBuf.take s.lastCommandLength ++
      [CalculateChecksum (s.lastCommandBuf.take s.lastCommandLength)])
      v3.resendTxOk ∈ (MDB_HandleError .nak t3 v3 (MDB_HandleError .nak t2 v2
        (MDB_HandleError .nak t1 v1 s).1).1).2 := by
    apply MDB_HandleError_branch_mem
    rw [B3, R2buf, R2len]
    simp
  have hge : ¬ (MDB_HandleError .nak t3 v3 (MDB_HandleError .nak t2 v2
      (MDB_HandleError .nak t1 v1 s).1).1).1.retryCount < 3 := by
    rw [R3r]
    omega
  have B4 := handleBranch_nak_ge v4 (MDB_HandleError .nak t3 v3
    (MDB_HandleError .nak t2 v2 (MDB_HandleError .nak t1 v1 s).1).1).1 hge
  have R4r : (MDB_HandleError .nak t4 v4 (MDB_HandleError .nak t3 v3
      (MDB_HandleError .nak t2 v2
        (MDB_HandleError .nak t1 v1 s).1).1).1).1.retryCount = 0 := by
    rw [MDB_HandleError_retryCount, B4]
    rw [(MDB_Reset_fields _ _ _).2.1]
  have R4m : Event.tx [16, 16] v4.resetTxOk ∈ (MDB_HandleError .nak t4 v4
      (MDB_HandleError .nak t3 v3 (MDB_HandleError .nak t2 v2
        (MDB_HandleError .nak t1 v1 s).1).1).1).2 := by
    apply MDB_HandleError_branch_mem
    rw [B4, MDB_Reset_eq]
    cases v4.resetTxOk <;> simp
  have R4no : ∀ ok, Event.tx (s.lastCommandBuf.take s.lastCommandLength ++
      [CalculateChecksum (s.lastCommandBuf.take s.lastCommandLength)]) ok
      ∉ (MDB_HandleError .nak t4 v4 (MDB_HandleError .nak t3 v3
        (MDB_HandleError .nak t2 v2
          (MDB_HandleError .nak t1 v1 s).1).1).1).2 := by
    intro ok hmem
    have hfr := MDB_HandleError_nak_ge_tx t4 v4 _ hge _ ok hmem
    apply hne
    have hdl := congrArg List.dropLast hfr
    simpa using hdl
  exact ⟨⟨R1r, R1m⟩, ⟨R2r, R2m⟩, ⟨R3r, R3m⟩, R4r, R4m, R4no⟩

/-- Witness for C2: a concrete engine with the one-byte command 0x13
recorded, four NAKs at tick 0. -/
theorem C2_nak_retry_cap_witness :
    ((MDB_HandleError .nak 0 quietEnv engRetry).1.retryCount = 1 ∧
      Event.tx ((engRetry.lastCommandBuf.take engRetry.lastCommandLength) ++
        [CalculateChecksum
          (engRetry.lastCommandBuf.take engRetry.lastCommandLength)])
        quietEnv.resendTxOk ∈ (MDB_HandleError .nak 0 quietEnv engRetry).2) ∧
    ((MDB_HandleError .nak 0 quietEnv
        (MDB_HandleError .nak 0 quietEnv engRetry).1).1.retryCount = 2 ∧
      Event.tx ((engRetry.lastCommandBuf.take engRetry.lastCommandLength) ++
        [CalculateChecksum
          (engRetry.lastCommandBuf.take engRetry.lastCommandLength)])
        quietEnv.resendTxOk ∈ (MDB_HandleError .nak 0 quietEnv
          (MDB_HandleError .nak 0 quietEnv engRetry).1).2) ∧
    ((MDB_HandleError .nak 0 quietEnv (MDB_HandleError .nak 0 quietEnv
        (MDB_HandleError .nak 0 quietEnv engRetry).1).1).1.retryCount = 3 ∧
      Event.tx ((engRetry.lastCommandBuf.take engRetry.lastCommandLength) ++
        [CalculateChecksum
          (engRetry.lastCommandBuf.take engRetry.lastCommandLength)])
        quietEnv.resendTxOk ∈ (MDB_HandleError .nak 0 quietEnv
          (MDB_HandleError .nak 0 quietEnv
            (MDB_HandleError .nak 0 quietEnv engRetry).1).1).2) ∧
    ((MDB_HandleError .nak 0 quietEnv (MDB_HandleError .nak 0 quietEnv
        (MDB_HandleError .nak 0 quietEnv (MDB_HandleError .nak 0 quietEnv
          engRetry).1).1).1).1.retryCount = 0 ∧
      Event.tx [16, 16] quietEnv.resetTxOk ∈ (MDB_HandleError .nak 0 quietEnv
        (MDB_HandleError .nak 0 quietEnv (MDB_HandleError .nak 0 quietEnv
          (MDB_HandleError .nak 0 quietEnv engRetry).1).1).1).2 ∧
      ∀ ok, Event.tx ((engRetry.lastCommandBuf.take
          engRetry.lastCommandLength) ++
        [CalculateChecksum
          (engRetry.lastCommandBuf.take engRetry.lastCommandLength)]) ok
        ∉ (MDB_HandleError .nak 0 quietEnv (MDB_HandleError .nak 0 quietEnv
          (MDB_HandleError .nak 0 quietEnv (MDB_HandleError .nak 0 quietEnv
            engRetry).1).1).1).2) :=
  C2_nak_retry_cap engRetry 0 0 0 0 quietEnv quietEnv quietEnv quietEnv
    (by decide) (by decide) (by decide) (by decide) (by decide)

/-- C4: burst detection, stated over the uint32 tick gaps the code computes
(`wsub`, which for monotone in-range ticks is the plain millisecond
difference, see wsub_eq_sub).  First part: in a run starting with a cleared
rolling counter (its state after the detector fires or after any gap of
5000 ms or more, and the boot state), six errors of any kinds each arriving
less than 5000 ms after the previously recorded error drive the counter
through 1..5 and, on the sixth, disable the reader and clear the counter.
Second part: a run of errors spaced 5000 ms or more apart never disables
the reader via burst detection — each spaced delivery resets the counter to
zero — where the error kinds exclude Hardware and Communication, whose
recovery branches disable the reader by themselves, outside burst
detection. -/
theorem C4_burst_detection :
    (∀ (s : Engine) (e1 e2 e3 e4 e5 e6 : MDB_Error) (t1 t2 t3 t4 t5 t6 : Nat)
      (v1 v2 v3 v4 v5 v6 : HErrEnv),
      s.rapidErrorCount = 0 →
      wsub t1 s.lastErrorTime < 5000 → wsub t2 t1 < 5000 →
      wsub t3 t2 < 5000 → wsub t4 t3 < 5000 →
      wsub t5 t4 < 5000 → wsub t6 t5 < 5000 →
      (let r1 := MDB_HandleError e1 t1 v1 s
       let r2 := MDB_HandleError e2 t2 v2 r1.1
       let r3 := MDB_HandleError e3 t3 v3 r2.1
       let r4 := MDB_HandleError e4 t4 v4 r3.1
       let r5 := MDB_HandleError e5 t5 v5 r4.1
       let r6 := MDB_HandleError e6 t6 v6 r5.1
       r1.1.rapidErrorCount = 1 ∧ r2.1.rapidErrorCount = 2 ∧
       r3.1.rapidErrorCount = 3 ∧ r4.1.rapidErrorCount = 4 ∧
       r5.1.rapidErrorCount = 5 ∧
       Event.disableReader ∈ r6.2 ∧ r6.1.rapidErrorCount = 0)) ∧
    (∀ (s : Engine) (errs : List (MDB_Error × Nat × HErrEnv)),
      spacedFrom s.lastErrorTime errs →
      (∀ x ∈ errs, x.1 ≠ MDB_Error.hardware ∧
        x.1 ≠ MDB_Error.communication) →
      (∀ evs ∈ (runErrorsEv errs s).2, Event.disableReader ∉ evs) ∧
      (errs ≠ [] → (runErrorsEv errs s).1.rapidErrorCount = 0)) := by
  constructor
  · intro s e1 e2 e3 e4 e5 e6 t1 t2 t3 t4 t5 t6 v1 v2 v3 v4 v5 v6
      h0 g1 g2 g3 g4 g5 g6
    have L1 : (MDB_HandleError e1 t1 v1 s).1.lastErrorTime = t1 :=
      MDB_HandleError_lastErrorTime _ _ _ _
    have P1 : (MDB_HandleError e1 t1 v1 s).1.rapidErrorCount = 1 := by
      rw [MDB_HandleError_rapid, if_pos g1, h0]
      simp
    have L2 : (MDB_HandleError e2 t2 v2
        (MDB_HandleError e1 t1 v1 s).1).1.lastErrorTime = t2 :=
      MDB_HandleError_lastErrorTime _ _ _ _
    have P2 : (MDB_HandleError e2 t2 v2
        (MDB_HandleError e1 t1 v1 s).1).1.rapidErrorCount = 2 := by
      rw [MDB_HandleError_rapid, L1, if_pos g2, P1]
      simp
    have L3 : (MDB_HandleError e3 t3 v3 (MDB_HandleError e2 t2 v2
        (MDB_HandleError e1 t1 v1 s).1).1).1.lastErrorTime = t3 :=
      MDB_HandleError_lastErrorTime _ _ _ _
    have P3 : (MDB_HandleError e3 t3 v3 (MDB_HandleError e2 t2 v2
        (MDB_HandleError e1 t1 v1 s).1).1).1.rapidErrorCount = 3 := by
      rw [MDB_HandleError_rapid, L2, if_pos g3, P2]
      simp
    have L4 : (MDB_HandleError e4 t4 v4 (MDB_HandleError e3 t3 v3
        (MDB_HandleError e2 t2 v2
          (MDB_HandleError e1 t1 v1 s).1).1).1).1.lastErrorTime = t4 :=
      MDB_HandleError_lastErrorTime _ _ _ _
    have P4 : (MDB_HandleError e4 t4 v4 (MDB_HandleError e3 t3 v3
        (MDB_HandleError e2 t2 v2
          (MDB_HandleError e1 t1 v1 s).1).1).1).1.rapidErrorCount = 4 := by
      rw [MDB_HandleError_rapid, L3, if_pos g4, P3]
      simp
    have L5 : (MDB_HandleError e5 t5 v5 (MDB_HandleError e4 t4 v4
        (MDB_HandleError e3 t3 v3 (MDB_HandleError e2 t2 v2
          (MDB_HandleError e1 t1 v1 s).1).1).1).1).1.lastErrorTime = t5 :=
      MDB_HandleError_lastErrorTime _ _ _ _
    have P5 : (MDB_HandleError e5 t5 v5 (MDB_HandleError e4 t4 v4
        (MDB_HandleError e3 t3 v3 (MDB_HandleError e2 t2 v2
          (MDB_HandleError e1 t1 v1 s).1).1).1).1).1.rapidErrorCount = 5 := by
      rw [MDB_HandleError_rapid, L4, if_pos g5, P4]
      simp
    have F6 : Event.disableReader ∈ (MDB_HandleError e6 t6 v6
        (MDB_HandleError e5 t5 v5 (MDB_HandleError e4 t4 v4
          (MDB_HandleError e3 t3 v3 (MDB_HandleError e2 t2 v2
            (MDB_HandleError e1 t1 v1 s).1).1).1).1).1).2 :=
      MDB_HandleError_fire _ _ _ _ (by rw [L5]; exact g6)
        (by rw [P5]; norm_num)
    have P6 : (MDB_HandleError e6 t6 v6 (MDB_HandleError e5 t5 v5
        (MDB_HandleError e4 t4 v4 (MDB_HandleError e3 t3 v3
          (MDB_HandleError e2 t2 v2
            (MDB_HandleError e1 t1 v1 s).1).1).1).1).1).1.rapidErrorCount
        = 0 := by
      rw [MDB_HandleError_rapid, L5, if_pos g6, P5]
      simp
    exact ⟨P1, P2, P3, P4, P5, F6, P6⟩
  · intro s errs
    induction errs generalizing s with
    | nil =>
      intro hsp hk
      refine ⟨?_, fun hne => absurd rfl hne⟩
      intro evs hevs
      simp [runErrorsEv] at hevs
    | cons head rest ih =>
      obtain ⟨e, t, v⟩ := head
      intro hsp hk
      obtain ⟨hgap, hsp'⟩ := hsp
      have hkh := hk (e, t, v) (by simp)
      have hnd : Event.disableReader ∉ (MDB_HandleError e t v s).2 :=
        MDB_HandleError_noDisable e t v s hkh.1 hkh.2 (by omega)
      have hL : (MDB_HandleError e t v s).1.lastErrorTime = t :=
        MDB_HandleError_lastErrorTime _ _ _ _
      have hsp2 : spacedFrom (MDB_HandleError e t v s).1.lastErrorTime rest :=
        by rw [hL]; exact hsp'
      have hk2 : ∀ x ∈ rest, x.1 ≠ MDB_Error.hardware ∧
          x.1 ≠ MDB_Error.communication :=
        fun x hx => hk x (by simp [hx])
      have IH := ih (MDB_HandleError e t v s).1 hsp2 hk2
      constructor
      · intro evs hevs
        simp only [runErrorsEv, List.mem_cons] at hevs
        rcases hevs with h | h
        · rw [h]
          exact hnd
        · exact IH.1 evs h
      · intro hne
        cases rest with
        | nil =>
          show (MDB_HandleError e t v s).1.rapidErrorCount = 0
          rw [MDB_HandleError_rapid, if_neg (by omega)]
        | cons hd2 tl2 =>
          exact IH.2 (by simp)

/-- Witness for C4: six rapid NAKs at tick 0 from the boot state disable the
reader on the sixth; two NAKs spaced 10000 ms apart never do. -/
theorem C4_burst_detection_witness :
    (let r1 := MDB_HandleError MDB_Error.nak 0 quietEnv initialEngine
     let r2 := MDB_HandleError MDB_Error.nak 0 quietEnv r1.1
     let r3 := MDB_HandleError MDB_Error.nak 0 quietEnv r2.1
     let r4 := MDB_HandleError MDB_Error.nak 0 quietEnv r3.1
     let r5 := MDB_HandleError MDB_Error.nak 0 quietEnv r4.1
     let r6 := MDB_HandleError MDB_Error.nak 0 quietEnv r5.1
     r1.1.rapidErrorCount = 1 ∧ r2.1.rapidErrorCount = 2 ∧
     r3.1.rapidErrorCount = 3 ∧ r4.1.rapidErrorCount = 4 ∧
     r5.1.rapidErrorCount = 5 ∧
     Event.disableReader ∈ r6.2 ∧ r6.1.rapidErrorCount = 0) ∧
    ((∀ evs ∈ (runErrorsEv [(MDB_Error.nak, 10000, quietEnv),
        (MDB_Error.nak, 20000, quietEnv)] initialEngine).2,
      Event.disableReader ∉ evs) ∧
     (([(MDB_Error.nak, 10000, quietEnv),
        (MDB_Error.nak, 20000, quietEnv)] :
          List (MDB_Error × Nat × HErrEnv)) ≠ [] →
      (runErrorsEv [(MDB_Error.nak, 10000, quietEnv),
        (MDB_Error.nak, 20000, quietEnv)]
          initialEngine).1.rapidErrorCount = 0)) :=
  ⟨C4_burst_detection.1 initialEngine .nak .nak .nak .nak .nak .nak
      0 0 0 0 0 0 quietEnv quietEnv quietEnv quietEnv quietEnv quietEnv
      (by decide) (by decide) (by decide) (by decide) (by decide) (by decide)
      (by decide),
    C4_burst_detection.2 initialEngine
      [(MDB_Error.nak, 10000, quietEnv), (MDB_Error.nak, 20000, quietEnv)]
      ⟨by decide, by decide, trivial⟩ (by decide)⟩

/-- C5 counterexample: the claim as stated records "the session state at the
time of the error" in the log entry.  Handling a State error raised while
the session state is Vend forces MDB_SessionComplete first, which moves the
state to Enabled, and only then appends the entry: the recorded state is
Enabled, not the Vend state that was current when the error occurred. -/
theorem C5_counterexample_state_after_recovery :
    ((MDB_HandleError MDB_Error.state 9000 quietEnv engVend).1.errorLog
        0).state = MDB_State.enabled ∧
    engVend.state = MDB_State.vend ∧
    MDB_State.enabled ≠ MDB_State.vend := by
  decide

/-- C5 amended: every invocation of the error handler, for every error kind,
appends exactly one entry to the 50-slot circular error log at the current
index — the index advances to (i + 1) mod 50, hence always stays below 50
and the oldest entry is silently overwritten once 50 entries have been
written — recording the invocation timestamp, the error kind, and the
session state, first last-command byte and last response byte as they stand
at the moment the entry is appended (after the per-kind recovery actions and
the burst detector have run), while every other slot is untouched. -/
theorem C5_errorLog_one_entry_per_invocation :
    ∀ (err : MDB_Error) (now : Nat) (env : HErrEnv) (s : Engine),
      (MDB_HandleError err now env s).1.errorLogIndex =
        (s.errorLogIndex + 1) % 50 ∧
      (MDB_HandleError err now env s).1.errorLogIndex < 50 ∧
      (MDB_HandleError err now env s).1.errorLog s.errorLogIndex =
        ⟨now, err, (burstUpdate now (handleBranch err env s).1).1.state,
          ((burstUpdate now
            (handleBranch err env s).1).1.lastCommandBuf).getD 0 0,
          (burstUpdate now (handleBranch err env s).1).1.lastResponse⟩ ∧
      ∀ j, j ≠ s.errorLogIndex →
        (MDB_HandleError err now env s).1.errorLog j = s.errorLog j := by
  intro err now env s
  obtain ⟨_, _, hbi, hbl, _⟩ := handleBranch_statsEq err env s
  obtain ⟨_, _, _, _, _, hui, hul, _⟩ :=
    burstUpdate_fields now (handleBranch err env s).1
  obtain ⟨_, _, _, _, _, _, _, _, _, _, hai, hal⟩ := appendErrorLog_fields
    err now (burstUpdate now (handleBranch err env s).1).1
  obtain ⟨_, _, _, _, hsi, hsl, _⟩ := seriousUpdate_fields err
    (appendErrorLog err now (burstUpdate now (handleBranch err env s).1).1)
  have hidx : (burstUpdate now (handleBranch err env s).1).1.errorLogIndex
      = s.errorLogIndex := by rw [hui, hbi]
  refine ⟨?_, ?_, ?_, ?_⟩
  · show (seriousUpdate err (appendErrorLog err now
      (burstUpdate now (handleBranch err env s).1).1)).1.errorLogIndex = _
    rw [hsi, hai, hidx]
  · show (seriousUpdate err (appendErrorLog err now
      (burstUpdate now (handleBranch err env s).1).1)).1.errorLogIndex < 50
    rw [hsi, hai]
    exact Nat.mod_lt _ (by norm_num)
  · show ((seriousUpdate err (appendErrorLog err now
      (burstUpdate now (handleBranch err env s).1).1)).1.errorLog
        s.errorLogIndex) = _
    rw [hsl, hal]
    simp [hidx]
  · intro j hj
    show ((seriousUpdate err (appendErrorLog err now
      (burstUpdate now (handleBranch err env s).1).1)).1.errorLog j) = _
    rw [hsl, hal]
    simp only [hidx, if_neg hj]
    rw [hul, hbl]

/-- Witness for C5 at a NAK from the boot state, checking slot 7 untouched. -/
theorem C5_errorLog_one_entry_per_invocation_witness :
    (MDB_HandleError MDB_Error.nak 5 quietEnv initialEngine).1.errorLogIndex
      = 1 ∧
    (MDB_HandleError MDB_Error.nak 5 quietEnv
      initialEngine).1.errorLogIndex < 50 ∧
    ((MDB_HandleError MDB_Error.nak 5 quietEnv initialEngine).1.errorLog
      0).timestamp = 5 ∧
    (MDB_HandleError MDB_Error.nak 5 quietEnv initialEngine).1.errorLog 7 =
      initialEngine.errorLog 7 := by
  have h := C5_errorLog_one_entry_per_invocation MDB_Error.nak 5 quietEnv
    initialEngine
  refine ⟨h.1.trans (by decide), h.2.1, ?_, h.2.2.2 7 (by decide)⟩
  have h3 := h.2.2.1
  rw [show initialEngine.errorLogIndex = 0 from rfl] at h3
  rw [h3]

/-- Events emitted by MDB_ProcessMessage are MDB_LogError calls only. -/
theorem MDB_ProcessMessage_events (codes : CmdCodes) (msg : Option (List Nat))
    (len : Nat) (s : Engine) :
    ∀ e ∈ (MDB_ProcessMessage codes msg len s).2.2,
      ∃ er, e = Event.logErr er := by
  intro e he
  simp only [MDB_ProcessMessage] at he
  (repeat' split at he) <;> simp at he <;> exact ⟨_, he⟩

/-- MDB_ProcessMessage never touches the message queue. -/
theorem MDB_ProcessMessage_queue (codes : CmdCodes) (msg : Option (List Nat))
    (len : Nat) (s : Engine) :
    (MDB_ProcessMessage codes msg len s).1.queue = s.queue := by
  simp only [MDB_ProcessMessage]
  (repeat' split) <;>
    simp [HandleJustReset, HandleBeginSession, HandleVendApproved,
      HandleVendDenied, HandleEndSession] <;>
    (repeat' split) <;> simp

/-- Draining leaves the queue as the already-emptied state has it. -/
theorem drainQueue_queue (codes : CmdCodes) :
    ∀ (q : List (List Nat)) (st : Engine),
      (drainQueue codes q st).1.queue = st.queue := by
  intro q
  induction q with
  | nil => intro st; rfl
  | cons m rest ih =>
    intro st
    simp only [drainQueue]
    rw [ih]
    exact MDB_ProcessMessage_queue _ _ _ _

/-- The dispatch events of a drain are exactly the drained frames, in
order. -/
theorem drainQueue_dispatches (codes : CmdCodes) :
    ∀ (q : List (List Nat)) (st : Engine),
      ((drainQueue codes q st).2).filterMap dispatchedOf = q := by
  intro q
  induction q with
  | nil => intro st; rfl
  | cons m rest ih =>
    intro st
    simp only [drainQueue, List.filterMap_cons, List.filterMap_append]
    have h1 : (MDB_ProcessMessage codes (Option.some m) m.length
        st).2.2.filterMap dispatchedOf = [] := by
      rw [List.filterMap_eq_nil_iff]
      intro a ha
      obtain ⟨er, hae⟩ := MDB_ProcessMessage_events _ _ _ _ a ha
      rw [hae]
      rfl
    simp [dispatchedOf, h1, ih]

/-- A list of the shape the non-early Poll paths produce splits around the
POLL transmit with the drain events as prefix. -/
theorem split_mid (a : List Event) (x : Event) (b c : List Event)
    (q : List (List Nat)) (hq : a.filterMap dispatchedOf = q) :
    ∃ pre post, (a ++ (x :: b)) ++ c = pre ++ x :: post ∧
      pre.filterMap dispatchedOf = q :=
  ⟨a, b ++ c, by simp, hq⟩

/-- C3: the claim describes Initialize() returning true exactly on a good
handshake (reset response byte 0x00, checksum-valid setup response).  On a
protocol-correct handshake the code still returns false: since
WaitForResponse can never complete a frame (the dead mode-bit test of C1),
MDB_Reset never succeeds, so MDB_Initialize returns false on every input
and every environment, always leaving the session state Inactive. -/
theorem C3_initialize_never_succeeds :
    ((MDB_Initialize' goodInitEnv initialEngine).2.1 = false ∧
      (MDB_Initialize' goodInitEnv initialEngine).1.state =
        MDB_State.inactive) ∧
    ∀ (env : InitEnv) (s : Engine),
      (MDB_Initialize' env s).2.1 = false ∧
      (MDB_Initialize' env s).1.state = MDB_State.inactive := by
  have hall : ∀ (env : InitEnv) (s : Engine),
      (MDB_Initialize' env s).2.1 = false ∧
      (MDB_Initialize' env s).1.state = MDB_State.inactive := by
    intro env s
    simp only [MDB_Initialize']
    split
    · constructor
      · rfl
      · rw [(MDB_Reset_fields _ _ _).1]
    · rename_i hcon
      rw [MDB_Reset_false] at hcon
      simp at hcon
  exact ⟨hall goodInitEnv initialEngine, hall⟩

/-- C8: Poll is a no-op — no event, no state change — while fewer than
200 ms (uint32 tick arithmetic) have passed since the last accepted poll;
otherwise it empties the queue and feeds every queued frame, in arrival
order, to the message handler strictly before the POLL frame transmit. -/
theorem C8_poll_cadence_and_drain_order :
    ∀ (codes : CmdCodes) (env : PollEnv) (now : Nat) (s : Engine),
      (wsub now s.lastPollTime < 200 →
        MDB_Poll codes env now s = (s, [])) ∧
      (¬ wsub now s.lastPollTime < 200 →
        (MDB_Poll codes env now s).1.queue = [] ∧
        ∃ pre post, (MDB_Poll codes env now s).2 =
          pre ++ Event.tx [18, 18] env.pollTxOk :: post ∧
          pre.filterMap dispatchedOf = s.queue) := by
  intro codes env now s
  constructor
  · intro h
    rw [MDB_Poll, if_pos h]
  · intro h
    have h1818 : [18] ++ [CalculateChecksum [18]] = ([18, 18] : List Nat) :=
      rfl
    have hq : (MDB_ProcessMessageQueue codes
        { s with lastPollTime := now }).1.queue = [] := by
      simp only [MDB_ProcessMessageQueue]
      rw [drainQueue_queue]
    have hd : (MDB_ProcessMessageQueue codes
        { s with lastPollTime := now }).2.filterMap dispatchedOf
        = s.queue := by
      simp only [MDB_ProcessMessageQueue]
      rw [drainQueue_dispatches]
    simp only [MDB_Poll]
    rw [if_neg h]
    rw [SendCommand_short _ _ _ (by norm_num), h1818]
    cases htx : env.pollTxOk with
    | false =>
      rw [if_pos (by simp)]
      constructor
      · rw [MDB_HandleError_queue]
        exact hq
      · exact split_mid _ _ _ _ _ hd
    | true =>
      rw [if_neg (by simp)]
      rw [if_pos (by simp [waitForResponse_success_false])]
      constructor
      · exact hq
      · exact split_mid _ _ _ _ _ hd

/-- Witness for C8: a rejected early poll 50 ms after the last one, and an
accepted poll at tick 500 with two queued frames. -/
theorem C8_poll_cadence_and_drain_order_witness :
    MDB_Poll ⟨1, 2, 3, 4, 5⟩ ⟨true, ⟨Option.none, []⟩, quietEnv⟩ 150
      { initialEngine with lastPollTime := 100 } =
      ({ initialEngine with lastPollTime := 100 }, []) ∧
    ((MDB_Poll ⟨1, 2, 3, 4, 5⟩ ⟨true, ⟨Option.none, []⟩, quietEnv⟩ 500
        { initialEngine with queue := [[9], [8, 7]] }).1.queue = [] ∧
      ∃ pre post, (MDB_Poll ⟨1, 2, 3, 4, 5⟩ ⟨true, ⟨Option.none, []⟩,
          quietEnv⟩ 500 { initialEngine with queue := [[9], [8, 7]] }).2 =
        pre ++ Event.tx [18, 18] true :: post ∧
        pre.filterMap dispatchedOf = [[9], [8, 7]]) :=
  ⟨(C8_poll_cadence_and_drain_order ⟨1, 2, 3, 4, 5⟩
      ⟨true, ⟨Option.none, []⟩, quietEnv⟩ 150
      { initialEngine with lastPollTime := 100 }).1 (by decide),
    (C8_poll_cadence_and_drain_order ⟨1, 2, 3, 4, 5⟩
      ⟨true, ⟨Option.none, []⟩, quietEnv⟩ 500
      { initialEngine with queue := [[9], [8, 7]] }).2 (by decide)⟩

end MDB
